import Mathlib

/-!
Verification of the `mvdist` crate (src/lib.rs): a safe wrapper around the
non-reentrant numerical routines `sys_mvdist` / `sys_mvcrit` from `mvdist-sys`.

Embedding notes.
* Scalars (`f64` in the source) are carried through untouched by the wrapper,
  so the development is polymorphic in a scalar type `F`; witnesses
  instantiate `F := Int`.
* `ndarray::Array2<f64>` is rectangular by construction, modelled as a shape
  pair with an entry function.  `ndarray::Array1<f64>` is modelled as its data
  together with a flag recording whether it is in standard (contiguous)
  layout; `as_slice` returns `some` exactly in the standard-layout case,
  which is the documented contract of `ndarray::ArrayBase::as_slice`.
* The boundary routines are opaque: `mvdist` / `mvcrit` are parametrised by a
  function of the curried argument list in the exact order of the call in the
  source, returning the `(error, value, nevals, inform)` tuple.
* A Rust panic (the `unwrap()` calls on `as_slice`) is modelled as `none`;
  a normal return is `some` of the `Result<MVResult, String>` value.
* The `MVDIST_MUTEX` lock/unlock around the boundary call is a concurrency
  mechanism with no sequential observable behaviour, so it has no counterpart
  in this sequential embedding.
-/

namespace Mvdist

variable {F : Type}

/-- The `BoundType` enumeration from src/lib.rs (lines 10-16). -/
inductive BoundType
  | Unbounded
  | Above
  | Below
  | Both
deriving DecidableEq, Repr, Fintype

/-- The `impl Into<i32> for BoundType` conversion (src/lib.rs lines 18-27). -/
def BoundType.into : BoundType → Int
  | .Unbounded => -1
  | .Above => 0
  | .Below => 1
  | .Both => 2

/-- The `MVInform` enumeration from src/lib.rs (lines 37-41). -/
inductive MVInform
  | Normal
  | PtLimitReached
deriving DecidableEq, Repr

/-- The `MVResult` struct from src/lib.rs (lines 29-35), polymorphic in the
scalar type standing for `f64`. -/
structure MVResult (F : Type) where
  value : F
  error : F
  nevals : Int
  state : MVInform
deriving DecidableEq, Repr

/-- Model of `ndarray::Array2<f64>`: an `m x n` rectangular matrix, row-major
in the caller's view, given by its shape and entry function. -/
structure Array2 (F : Type) where
  nrows : Nat
  ncols : Nat
  entry : Fin nrows → Fin ncols → F

/-- Model of `ndarray::Array1<f64>`: the element sequence plus a flag saying
whether the storage is in standard (contiguous) layout. -/
structure Array1 (F : Type) where
  data : List F
  standard_layout : Bool := true

/-- Model of `ndarray::ArrayBase::as_slice`: `Some` of the data exactly when
the array is in standard layout, `None` otherwise (the documented contract). -/
def Array1.as_slice (a : Array1 F) : Option (List F) :=
  if a.standard_layout then some a.data else none

/-- `column_ordered` from src/lib.rs (lines 47-49):
`ar.t().into_iter().cloned().collect()` — the transposed view has shape
`(ncols, nrows)` with entry `(i, j) = ar[j][i]`, and iterating it in its
row-major order yields, for each transposed row `i` (a column of `ar`),
its entries `ar[j][i]` for `j = 0 .. nrows - 1`. -/
def column_ordered (ar : Array2 F) : List F :=
  (List.finRange ar.ncols).flatMap fun i => (List.finRange ar.nrows).map fun j => ar.entry j i

/-- Rust `usize as i32` cast, as used for `shape[0] as i32` and
`shape[1] as i32` (src/lib.rs line 66): truncate to the low 32 bits and
reinterpret as a signed 32-bit value. -/
def usizeAsI32 (x : Nat) : Int :=
  let r : Nat := x % 2 ^ 32
  if r < 2 ^ 31 then (r : Int) else (r : Int) - 2 ^ 32

/-- The bound-kind encoding applied inside both operations
(src/lib.rs lines 67 and 114): `types.iter().map(|&t| t.into()).collect()`. -/
def encode_bounds (ts : List BoundType) : List Int :=
  ts.map BoundType.into

/-- The status-code match of `mvdist` (src/lib.rs lines 85-91). -/
def mvdist_inform (inform : Int) : Except String MVInform :=
  match inform with
  | 0 => .ok .Normal
  | 1 => .ok .PtLimitReached
  | 2 => .error ("Invalid choice of N")
  | 3 => .error ("Covariance matrix not positive semidefinite")
  | x => .error ("Unknown error code " ++ toString x)

/-- The status-code match of `mvcrit` (src/lib.rs lines 131-135). -/
def mvcrit_inform (inform : Int) : Except String MVInform :=
  match inform with
  | 0 => .ok .Normal
  | 1 => .ok .PtLimitReached
  | 2 => .error ("Invalid bounds given.")
  | x => .error ("Unknown error code " ++ toString x)

/-- The match-plus-`and_then` tail of `mvdist` (src/lib.rs lines 85-99):
interpret the status code, then package the raw outputs into an `MVResult`. -/
def mvdist_result (error value : F) (nevals inform : Int) : Except String (MVResult F) :=
  (mvdist_inform inform).map fun inf =>
    { error := error, value := value, nevals := nevals, state := inf }

/-- The match-plus-`and_then` tail of `mvcrit` (src/lib.rs lines 131-144). -/
def mvcrit_result (error value : F) (nevals inform : Int) : Except String (MVResult F) :=
  (mvcrit_inform inform).map fun inf =>
    { error := error, value := value, nevals := nevals, state := inf }

/-- The shape of `sys_mvdist` from `mvdist-sys`, curried in the exact
argument order of the call at src/lib.rs lines 69-80:
n, flattened covariance, nu, m, lower bounds, flattened constraints,
upper bounds, encoded bound kinds, delta, maxpts, abseps, releps;
returning `(error, value, nevals, inform)`. -/
def SysMvdist (F : Type) : Type :=
  Int → List F → Int → Int → List F → List F → List F → List Int → List F →
    Int → F → F → F × F × Int × Int

/-- The shape of `sys_mvcrit` from `mvdist-sys`, curried in the exact
argument order of the call at src/lib.rs lines 116-126 (alpha replaces
delta and releps is absent). -/
def SysMvcrit (F : Type) : Type :=
  Int → List F → Int → Int → List F → List F → List F → List Int → F →
    Int → F → F × F × Int × Int

/-- `mvdist` from src/lib.rs (lines 54-100), parametrised by the boundary
routine.  `none` models a panic (the `unwrap()` on a non-contiguous
`as_slice`); `some` models a normal return of the `Result`.  The mutex
acquire/release around the call has no sequential observable effect and is
not modelled. -/
def mvdist (sys : SysMvdist F) (cov : Array2 F) (nu : Int) (lb ub : Array1 F)
    (types : List BoundType) (constraints : Array2 F) (delta : Array1 F)
    (maxpts : Int) (abseps releps : F) : Option (Except String (MVResult F)) := do
  let m := usizeAsI32 constraints.nrows
  let n := usizeAsI32 constraints.ncols
  let infin := encode_bounds types
  let lbs ← lb.as_slice
  let ubs ← ub.as_slice
  let ds ← delta.as_slice
  let (error, value, nevals, inform) :=
    sys n (column_ordered cov) nu m lbs (column_ordered constraints) ubs infin ds
      maxpts abseps releps
  pure (mvdist_result error value nevals inform)

/-- `mvcrit` from src/lib.rs (lines 102-146), parametrised by the boundary
routine, with the same panic and mutex conventions as `mvdist`. -/
def mvcrit (sys : SysMvcrit F) (cov : Array2 F) (nu : Int) (lb ub : Array1 F)
    (types : List BoundType) (constraints : Array2 F) (alpha : F)
    (maxpts : Int) (abseps : F) : Option (Except String (MVResult F)) := do
  let m := usizeAsI32 constraints.nrows
  let n := usizeAsI32 constraints.ncols
  let infin := encode_bounds types
  let lbs ← lb.as_slice
  let ubs ← ub.as_slice
  let (error, value, nevals, inform) :=
    sys n (column_ordered cov) nu m lbs (column_ordered constraints) ubs infin alpha
      maxpts abseps
  pure (mvcrit_result error value nevals inform)

/-- Modelled from the spec: the decode direction of the fixed bidirectional
bound-kind/integer code table (spec sections 4.1 and 9).  The source provides
only the encode direction (`impl Into<i32>`, src/lib.rs lines 18-27); the
decode direction is the table read backwards. -/
def decode_bound (c : Int) : Option BoundType :=
  if c = -1 then some .Unbounded
  else if c = 0 then some .Above
  else if c = 1 then some .Below
  else if c = 2 then some .Both
  else none

/-! ## Helper lemmas -/

theorem getElem_flatMap_finRange {F : Type} :
    ∀ (n m : Nat) (f : Fin n → Fin m → F) (i : Fin n) (j : Fin m),
      ((List.finRange n).flatMap fun a =>
        (List.finRange m).map fun b => f a b)[(i : Nat) * m + (j : Nat)]? = some (f i j) := by
  intro n
  induction n with
  | zero => intro m f i j; exact i.elim0
  | succ n ih =>
    intro m f i j
    rw [List.finRange_succ, List.flatMap_cons]
    rcases Fin.eq_zero_or_eq_succ i with hi | ⟨i0, hi⟩
    · subst hi
      have hj : (j : Nat) < ((List.finRange m).map fun b => f 0 b).length := by
        simp [j.isLt]
      rw [Fin.val_zero, Nat.zero_mul, Nat.zero_add, List.getElem?_append_left hj]
      simp
    · subst hi
      have hsucc : ((Fin.succ i0 : Fin (n + 1)) : Nat) * m + (j : Nat)
          = m + ((i0 : Nat) * m + (j : Nat)) := by
        rw [Fin.val_succ, Nat.succ_mul]
        ring
      have hlen : ((List.finRange m).map fun b => f 0 b).length ≤
          m + ((i0 : Nat) * m + (j : Nat)) := by
        simp
      rw [hsucc, List.getElem?_append_right hlen]
      have hidx : m + ((i0 : Nat) * m + (j : Nat)) -
          ((List.finRange m).map fun b => f 0 b).length = (i0 : Nat) * m + (j : Nat) := by
        simp
      rw [hidx, List.flatMap_map]
      exact ih m (fun a b => f (Fin.succ a) b) i0 j

theorem length_column_ordered (ar : Array2 F) :
    (column_ordered ar).length = ar.nrows * ar.ncols := by
  unfold column_ordered
  rw [List.length_flatMap]
  have hconst : (List.length ∘ fun i : Fin ar.ncols =>
      (List.finRange ar.nrows).map fun j => ar.entry j i) = fun _ => ar.nrows := by
    funext i
    simp
  rw [hconst, List.map_const', List.sum_replicate, List.length_finRange, smul_eq_mul,
    Nat.mul_comm]

/-! ## Claims -/

/-- Claim C5: `column_ordered` on an m by n row-major matrix produces the
m * n entries in column-major order: the flat output at index i * m + j is
the source entry at row j, column i (for a square matrix, index i * n + j
holds entry [j][i]); it is a pure function of the input. -/
theorem column_ordered_is_column_major (ar : Array2 F) :
    (column_ordered ar).length = ar.nrows * ar.ncols ∧
    ∀ (i : Fin ar.ncols) (j : Fin ar.nrows),
      (column_ordered ar)[(i : Nat) * ar.nrows + (j : Nat)]? = some (ar.entry j i) := by
  refine ⟨length_column_ordered ar, fun i j => ?_⟩
  exact getElem_flatMap_finRange ar.ncols ar.nrows (fun a b => ar.entry b a) i j

/-- Claim C6: the bound-kind encoding maps Unbounded to -1, Above (upper
only) to 0, Below (lower only) to 1 and Both to 2; it is a bijection between
the four variants and the code set consisting of -1, 0, 1 and 2; and the
element-wise encoding of a sequence preserves order and length. -/
theorem bound_encoding_bijective :
    (BoundType.into .Unbounded = -1 ∧ BoundType.into .Above = 0 ∧
      BoundType.into .Below = 1 ∧ BoundType.into .Both = 2) ∧
    (∀ a b : BoundType, a.into = b.into → a = b) ∧
    (∀ c : Int, c = -1 ∨ c = 0 ∨ c = 1 ∨ c = 2 → ∃ t : BoundType, t.into = c) ∧
    (∀ ts : List BoundType, (encode_bounds ts).length = ts.length ∧
      ∀ k : Nat, (encode_bounds ts)[k]? = (ts[k]?).map BoundType.into) := by
  refine ⟨by decide, by decide, ?_, ?_⟩
  · rintro c (rfl | rfl | rfl | rfl)
    · exact ⟨.Unbounded, rfl⟩
    · exact ⟨.Above, rfl⟩
    · exact ⟨.Below, rfl⟩
    · exact ⟨.Both, rfl⟩
  · intro ts
    refine ⟨by simp [encode_bounds], fun k => by simp [encode_bounds]⟩

/-- Witness for C6 at concrete inputs: injectivity applied at Above and
surjectivity applied at the code 2. -/
theorem bound_encoding_bijective_witness :
    BoundType.Above = BoundType.Above ∧ ∃ t : BoundType, t.into = 2 :=
  ⟨bound_encoding_bijective.2.1 .Above .Above rfl,
    bound_encoding_bijective.2.2.1 2 (by decide)⟩

/-- Claim C7: encoding a sequence of bound kinds and then decoding each code
through the fixed table reproduces the original sequence exactly. -/
theorem bound_encoding_round_trip (ts : List BoundType) :
    (encode_bounds ts).map decode_bound = ts.map some := by
  induction ts with
  | nil => rfl
  | cons t ts ih =>
    have ht : decode_bound t.into = some t := by cases t <;> rfl
    simp only [encode_bounds, List.map_cons] at ih ⊢
    rw [ht, ih]

/-- Claim C3: `mvdist` interprets the boundary status code exactly as:
0 gives Ok with state Normal, 1 gives Ok with state PtLimitReached (both
carrying the routine's value, error estimate and evaluation count), 2 gives
the invalid-dimensionality error, 3 gives the not-positive-semidefinite
error, and every other code gives the unknown-error-code failure carrying
the raw code, never a success. -/
theorem mvdist_status_interpretation (error value : F) (nevals : Int) :
    mvdist_result error value nevals 0 =
      .ok { value := value, error := error, nevals := nevals, state := .Normal } ∧
    mvdist_result error value nevals 1 =
      .ok { value := value, error := error, nevals := nevals, state := .PtLimitReached } ∧
    mvdist_result error value nevals 2 = .error ("Invalid choice of N") ∧
    mvdist_result error value nevals 3 =
      .error ("Covariance matrix not positive semidefinite") ∧
    ∀ c : Int, c ≠ 0 → c ≠ 1 → c ≠ 2 → c ≠ 3 →
      mvdist_result error value nevals c = .error ("Unknown error code " ++ toString c) := by
  refine ⟨rfl, rfl, rfl, rfl, ?_⟩
  intro c h0 h1 h2 h3
  unfold mvdist_result mvdist_inform
  split
  · simp_all
  · simp_all
  · simp_all
  · simp_all
  · rfl

/-- Witness for C3: the catch-all arm applied at status code 9. -/
theorem mvdist_status_interpretation_witness :
    @mvdist_result Int 5 6 7 9 = .error ("Unknown error code 9") :=
  (@mvdist_status_interpretation Int 5 6 7).2.2.2.2 9 (by decide) (by decide) (by decide)
    (by decide)

/-- Claim C4: `mvcrit` interprets the boundary status code exactly as:
0 gives Ok with state Normal, 1 gives Ok with state PtLimitReached, 2 gives
the invalid-bounds error, and every other code, including 3, gives the
unknown-error-code failure carrying the raw code, never a success. -/
theorem mvcrit_status_interpretation (error value : F) (nevals : Int) :
    mvcrit_result error value nevals 0 =
      .ok { value := value, error := error, nevals := nevals, state := .Normal } ∧
    mvcrit_result error value nevals 1 =
      .ok { value := value, error := error, nevals := nevals, state := .PtLimitReached } ∧
    mvcrit_result error value nevals 2 = .error ("Invalid bounds given.") ∧
    mvcrit_result error value nevals 3 = .error ("Unknown error code 3") ∧
    ∀ c : Int, c ≠ 0 → c ≠ 1 → c ≠ 2 →
      mvcrit_result error value nevals c = .error ("Unknown error code " ++ toString c) := by
  refine ⟨rfl, rfl, rfl, rfl, ?_⟩
  intro c h0 h1 h2
  unfold mvcrit_result mvcrit_inform
  split
  · simp_all
  · simp_all
  · simp_all
  · rfl

/-- Witness for C4: the catch-all arm applied at status code 3. -/
theorem mvcrit_status_interpretation_witness :
    @mvcrit_result Int 5 6 7 3 = .error ("Unknown error code 3") :=
  (@mvcrit_status_interpretation Int 5 6 7).2.2.2.2 3 (by decide) (by decide) (by decide)

/-- Claim C8: both operations pass their arguments to the boundary routine
in exactly the fixed order of the external contract: dimension count n, the
column-major-flattened covariance, degrees of freedom, constraint-row count
m, lower bounds, column-major-flattened constraints, upper bounds, encoded
bound kinds, then shift (mvdist) or alpha (mvcrit), max evaluations and
tolerances, with n and m taken from the constraint matrix's shape; the
operation returns the interpretation of exactly that call's output. -/
theorem boundary_argument_order (sys : SysMvdist F) (sysc : SysMvcrit F)
    (cov : Array2 F) (nu : Int) (lbl ubl dl : List F) (types : List BoundType)
    (constraints : Array2 F) (alpha : F) (maxpts : Int) (abseps releps : F)
    (er v : F) (k c : Int) (erc vc : F) (kc cc : Int)
    (hdist : sys (usizeAsI32 constraints.ncols) (column_ordered cov) nu
      (usizeAsI32 constraints.nrows) lbl (column_ordered constraints) ubl
      (encode_bounds types) dl maxpts abseps releps = (er, v, k, c))
    (hcrit : sysc (usizeAsI32 constraints.ncols) (column_ordered cov) nu
      (usizeAsI32 constraints.nrows) lbl (column_ordered constraints) ubl
      (encode_bounds types) alpha maxpts abseps = (erc, vc, kc, cc)) :
    mvdist sys cov nu ⟨lbl, true⟩ ⟨ubl, true⟩ types constraints ⟨dl, true⟩ maxpts abseps releps
      = some (mvdist_result er v k c) ∧
    mvcrit sysc cov nu ⟨lbl, true⟩ ⟨ubl, true⟩ types constraints alpha maxpts abseps
      = some (mvcrit_result erc vc kc cc) := by
  constructor
  · simp [mvdist, Array1.as_slice, hdist]
  · simp [mvcrit, Array1.as_slice, hcrit]

/-- Witness for C8: concrete probe boundary routines whose outputs are
visible in the returned results. -/
theorem boundary_argument_order_witness :
    mvdist (fun _ _ _ _ _ _ _ _ _ _ _ _ => ((1 : Int), 2, 3, 0)) ⟨1, 1, fun _ _ => 0⟩ 0
        ⟨[0], true⟩ ⟨[0], true⟩ [BoundType.Both] ⟨1, 1, fun _ _ => 0⟩ ⟨[0], true⟩ 0 0 0
      = some (.ok { value := 2, error := 1, nevals := 3, state := .Normal }) ∧
    mvcrit (fun _ _ _ _ _ _ _ _ _ _ _ => ((4 : Int), 5, 6, 1)) ⟨1, 1, fun _ _ => 0⟩ 0
        ⟨[0], true⟩ ⟨[0], true⟩ [BoundType.Both] ⟨1, 1, fun _ _ => 0⟩ 0 0 0
      = some (.ok { value := 5, error := 4, nevals := 6, state := .PtLimitReached }) :=
  boundary_argument_order (fun _ _ _ _ _ _ _ _ _ _ _ _ => ((1 : Int), 2, 3, 0))
    (fun _ _ _ _ _ _ _ _ _ _ _ => ((4 : Int), 5, 6, 1)) ⟨1, 1, fun _ _ => 0⟩ 0
    [0] [0] [0] [BoundType.Both] ⟨1, 1, fun _ _ => 0⟩ 0 0 0 0 1 2 3 0 4 5 6 1 rfl rfl

/-- Claim C2 counterexample: with a constraint matrix of 2 rows but a
bound-kind sequence (and lower, upper and shift vectors) of length 1,
`mvdist` does not return a contract-violation error before the boundary
call: the boundary routine is invoked (its probe output 777 is visible in
the returned evaluation count) and its interpreted result is returned. -/
theorem dimension_mismatch_reaches_boundary :
    ([BoundType.Both].length ≠ (⟨2, 1, fun _ _ => (0 : Int)⟩ : Array2 Int).nrows) ∧
    mvdist (fun _ _ _ _ _ _ _ _ _ _ _ _ => ((0 : Int), 0, 777, 0))
        ⟨1, 1, fun _ _ => 0⟩ 0 ⟨[0], true⟩ ⟨[0], true⟩ [BoundType.Both]
        ⟨2, 1, fun _ _ => 0⟩ ⟨[0], true⟩ 0 0 0
      = some (.ok { value := 0, error := 0, nevals := 777, state := .Normal }) :=
  ⟨by decide, rfl⟩

/-- Claim C2 amended: the operations perform no dimensionality validation;
even when the bound-kind sequence length differs from the constraint-row
count, both operations invoke the boundary routine with the marshalled
arguments and return its interpreted outcome, never a prior
contract-violation error. -/
theorem no_dimension_check (sys : SysMvdist F) (sysc : SysMvcrit F)
    (cov : Array2 F) (nu : Int) (lbl ubl dl : List F) (types : List BoundType)
    (constraints : Array2 F) (alpha : F) (maxpts : Int) (abseps releps : F)
    (hmismatch : types.length ≠ constraints.nrows)
    (er v : F) (k c : Int) (erc vc : F) (kc cc : Int)
    (hdist : sys (usizeAsI32 constraints.ncols) (column_ordered cov) nu
      (usizeAsI32 constraints.nrows) lbl (column_ordered constraints) ubl
      (encode_bounds types) dl maxpts abseps releps = (er, v, k, c))
    (hcrit : sysc (usizeAsI32 constraints.ncols) (column_ordered cov) nu
      (usizeAsI32 constraints.nrows) lbl (column_ordered constraints) ubl
      (encode_bounds types) alpha maxpts abseps = (erc, vc, kc, cc)) :
    mvdist sys cov nu ⟨lbl, true⟩ ⟨ubl, true⟩ types constraints ⟨dl, true⟩ maxpts abseps releps
      = some (mvdist_result er v k c) ∧
    mvcrit sysc cov nu ⟨lbl, true⟩ ⟨ubl, true⟩ types constraints alpha maxpts abseps
      = some (mvcrit_result erc vc kc cc) := by
  constructor
  · simp [mvdist, Array1.as_slice, hdist]
  · simp [mvcrit, Array1.as_slice, hcrit]

/-- Witness for the amended C2: a length-1 bound-kind sequence against a
2-row constraint matrix still reaches the probe boundary routines. -/
theorem no_dimension_check_witness :
    mvdist (fun _ _ _ _ _ _ _ _ _ _ _ _ => ((0 : Int), 0, 11, 0)) ⟨1, 1, fun _ _ => 0⟩ 0
        ⟨[0], true⟩ ⟨[0], true⟩ [BoundType.Both] ⟨2, 1, fun _ _ => 0⟩ ⟨[0], true⟩ 0 0 0
      = some (.ok { value := 0, error := 0, nevals := 11, state := .Normal }) ∧
    mvcrit (fun _ _ _ _ _ _ _ _ _ _ _ => ((0 : Int), 0, 12, 0)) ⟨1, 1, fun _ _ => 0⟩ 0
        ⟨[0], true⟩ ⟨[0], true⟩ [BoundType.Both] ⟨2, 1, fun _ _ => 0⟩ 0 0 0
      = some (.ok { value := 0, error := 0, nevals := 12, state := .Normal }) :=
  no_dimension_check (fun _ _ _ _ _ _ _ _ _ _ _ _ => ((0 : Int), 0, 11, 0))
    (fun _ _ _ _ _ _ _ _ _ _ _ => ((0 : Int), 0, 12, 0)) ⟨1, 1, fun _ _ => 0⟩ 0
    [0] [0] [0] [BoundType.Both] ⟨2, 1, fun _ _ => 0⟩ 0 0 0 0 (by decide)
    0 0 11 0 0 0 12 0 rfl rfl

/-- Claim C10: if any of the lower, upper or shift vectors is not in
standard contiguous layout, `mvdist` panics on the `as_slice` unwrap
(modelled as `none`) instead of returning an error, and `mvcrit` does the
same for its lower and upper vectors; conversely, when those vectors are in
standard layout the unwraps never fail and the operations return normally. -/
theorem as_slice_unwrap_behavior (sys : SysMvdist F) (sysc : SysMvcrit F)
    (cov : Array2 F) (nu : Int) (lb ub delta : Array1 F) (types : List BoundType)
    (constraints : Array2 F) (alpha : F) (maxpts : Int) (abseps releps : F) :
    (lb.standard_layout = false ∨ ub.standard_layout = false ∨
        delta.standard_layout = false →
      mvdist sys cov nu lb ub types constraints delta maxpts abseps releps = none) ∧
    (lb.standard_layout = true → ub.standard_layout = true →
        delta.standard_layout = true →
      (mvdist sys cov nu lb ub types constraints delta maxpts abseps releps).isSome = true) ∧
    (lb.standard_layout = false ∨ ub.standard_layout = false →
      mvcrit sysc cov nu lb ub types constraints alpha maxpts abseps = none) ∧
    (lb.standard_layout = true → ub.standard_layout = true →
      (mvcrit sysc cov nu lb ub types constraints alpha maxpts abseps).isSome = true) := by
  obtain ⟨lbd, slb⟩ := lb
  obtain ⟨ubd, sub⟩ := ub
  obtain ⟨dd, sd⟩ := delta
  cases slb <;> cases sub <;> cases sd <;>
    simp [mvdist, mvcrit, Array1.as_slice]

/-- Witness for C10: a non-contiguous lower vector makes `mvdist` panic,
while contiguous vectors let `mvcrit` return normally. -/
theorem as_slice_unwrap_behavior_witness :
    mvdist (fun _ _ _ _ _ _ _ _ _ _ _ _ => ((0 : Int), 0, 0, 0)) ⟨1, 1, fun _ _ => 0⟩ 0
        ⟨[0], false⟩ ⟨[0], true⟩ [BoundType.Both] ⟨1, 1, fun _ _ => 0⟩ ⟨[0], true⟩ 0 0 0
      = none ∧
    (mvcrit (fun _ _ _ _ _ _ _ _ _ _ _ => ((0 : Int), 0, 0, 0)) ⟨1, 1, fun _ _ => 0⟩ 0
        ⟨[0], true⟩ ⟨[0], true⟩ [BoundType.Both] ⟨1, 1, fun _ _ => 0⟩ 0 0 0).isSome = true :=
  ⟨(as_slice_unwrap_behavior (fun _ _ _ _ _ _ _ _ _ _ _ _ => ((0 : Int), 0, 0, 0))
      (fun _ _ _ _ _ _ _ _ _ _ _ => ((0 : Int), 0, 0, 0)) ⟨1, 1, fun _ _ => 0⟩ 0
      ⟨[0], false⟩ ⟨[0], true⟩ ⟨[0], true⟩ [BoundType.Both] ⟨1, 1, fun _ _ => 0⟩ 0 0 0
      0).1 (Or.inl rfl),
    (as_slice_unwrap_behavior (fun _ _ _ _ _ _ _ _ _ _ _ _ => ((0 : Int), 0, 0, 0))
      (fun _ _ _ _ _ _ _ _ _ _ _ => ((0 : Int), 0, 0, 0)) ⟨1, 1, fun _ _ => 0⟩ 0
      ⟨[0], true⟩ ⟨[0], true⟩ ⟨[0], true⟩ [BoundType.Both] ⟨1, 1, fun _ _ => 0⟩ 0 0 0
      0).2.2.2 rfl rfl⟩

end Mvdist
